import Mathlib

/-!
Shallow embedding of the command-dispatch and compatibility-gate layer of the
notmuch CLI (`notmuch.c`).  Pure decision logic is translated into Lean
functions; process effects (printing, `exit`, `execlp`, resource
acquisition/release) are made explicit in result records, and external
collaborators (option parser, configuration store, database, subcommand
handlers) appear as explicit inputs.
-/

namespace Notmuch

/-- `EXIT_SUCCESS` from the C standard library. -/
def EXIT_SUCCESS : Int := 0

/-- `EXIT_FAILURE` from the C standard library. -/
def EXIT_FAILURE : Int := 1

/-- Modelled from the spec: the distinct "format too old" exit code
(`NOTMUCH_EXIT_FORMAT_TOO_OLD`), defined in `notmuch-client.h`, which is not
part of the sources in scope; the spec requires only a distinct non-zero
code stable for callers. -/
def NOTMUCH_EXIT_FORMAT_TOO_OLD : Int := 20

/-- Modelled from the spec: the distinct "format too new" exit code
(`NOTMUCH_EXIT_FORMAT_TOO_NEW`), defined in `notmuch-client.h`, which is not
part of the sources in scope; the spec requires only a distinct non-zero
code stable for callers. -/
def NOTMUCH_EXIT_FORMAT_TOO_NEW : Int := 21

/-- Modelled from the spec: the fixed version string (`NOTMUCH_VERSION`) is a
build-time constant not present in the sources in scope; the claims only
require that it is one fixed string. -/
def NOTMUCH_VERSION : String := "0.20"

/-- The line printed by the `--version` short circuit:
`printf ("notmuch " STRINGIFY(NOTMUCH_VERSION) "\n")`. -/
def version_line : String := "notmuch " ++ NOTMUCH_VERSION ++ "\n"

/-- Decision of the format compatibility gate: either `exit` with a code, or
return normally to the caller. -/
inductive FormatDecision where
  | exitWith (code : Int)
  | proceed
  deriving DecidableEq, Repr

/-- The "too new" diagnostic of `notmuch_exit_if_unsupported_format`,
with the two `%d` holes filled. -/
def format_too_new_msg (requested cur : Int) : String :=
  "A caller requested output format version " ++ toString requested ++
  ", but the installed notmuch\nCLI only supports up to format version " ++
  toString cur ++ ".  You may need to upgrade your\nnotmuch CLI.\n"

/-- The "too old" diagnostic of `notmuch_exit_if_unsupported_format`,
with the two `%d` holes filled. -/
def format_too_old_msg (requested min : Int) : String :=
  "A caller requested output format version " ++ toString requested ++
  ", which is no longer supported\nby the notmuch CLI (it requires at least version " ++
  toString min ++ ").  You may need to\nupgrade your notmuch front-end.\n"

/-- The deprecation warning of `notmuch_exit_if_unsupported_format`,
with the `%d` hole filled. -/
def format_deprecated_msg (requested : Int) : String :=
  "A caller requested deprecated output format version " ++ toString requested ++
  ", which may not\nbe supported in the future.\n"

/-- `notmuch_exit_if_unsupported_format` from `notmuch.c`.  The three
reference constants (`NOTMUCH_FORMAT_MIN`, `NOTMUCH_FORMAT_MIN_ACTIVE`,
`NOTMUCH_FORMAT_CUR`) are compile-time constants of the build, passed here
as parameters; `requested` is the value of the global
`notmuch_format_version`.  The result is the exit decision paired with the
diagnostics written to `stderr`, in order. -/
def notmuch_exit_if_unsupported_format
    (format_min format_min_active format_cur requested : Int) :
    FormatDecision × List String :=
  if requested > format_cur then
    (FormatDecision.exitWith NOTMUCH_EXIT_FORMAT_TOO_NEW,
      [format_too_new_msg requested format_cur])
  else if requested < format_min then
    (FormatDecision.exitWith NOTMUCH_EXIT_FORMAT_TOO_OLD,
      [format_too_old_msg requested format_min])
  else if requested < format_min_active then
    (FormatDecision.proceed, [format_deprecated_msg requested])
  else
    (FormatDecision.proceed, [])

/-- Outcome of the database identity gate when the `strcmp` step is reached
(or skipped): either the function returns normally to the caller, or it
exits the process with a code after a diagnostic. -/
inductive UuidOutcome where
  | returned
  | fatal (code : Int) (msg : String)
  deriving DecidableEq, Repr

/-- The mismatch diagnostic of `notmuch_exit_if_unmatched_db_uuid`, with the
two `%s` holes filled. -/
def uuid_mismatch_msg (requested uuid : String) : String :=
  "Error: requested database revision " ++ requested ++ " does not match " ++
  uuid ++ "\n"

/-- `notmuch_exit_if_unmatched_db_uuid` from `notmuch.c`.

`requested_db_uuid` is the global `notmuch_requested_db_uuid` (`NULL` when
the `--uuid` option was never given, modelled as `none`).  The database query
`notmuch_database_get_revision` is an external collaborator not in the
sources in scope; modelled from the spec: the query yields a revision
identifier string or fails, and its status result is discarded by
`IGNORE_RESULT`, so the query response is passed in as `query_status`
(ignored, mirroring `IGNORE_RESULT`) and `query_uuid` (the string stored
through the out-parameter, `none` when the query fails and leaves the local
`uuid` at its `NULL` initialisation).

The result is `none` when the behaviour of the C code is undefined — `strcmp`
applied to the `NULL` `uuid` — and otherwise `some (queried, outcome)` where
`queried` records whether the database was consulted at all. -/
def notmuch_exit_if_unmatched_db_uuid
    (requested_db_uuid : Option String) (_query_status : Int)
    (query_uuid : Option String) : Option (Bool × UuidOutcome) :=
  match requested_db_uuid with
  | none => some (false, UuidOutcome.returned)
  | some r =>
    match query_uuid with
    | none => none
    | some uuid =>
      if r = uuid then some (true, UuidOutcome.returned)
      else some (true, UuidOutcome.fatal 1 (uuid_mismatch_msg r uuid))

/-- The subcommand hook type `command_function_t`.  The handlers themselves
are external collaborators (the core "only knows each subcommand as an
opaque function"), so they are embedded as an enumeration of the function
names appearing in the `commands` table. -/
inductive command_function_t where
  | notmuch_command
  | notmuch_setup_command
  | notmuch_new_command
  | notmuch_insert_command
  | notmuch_search_command
  | notmuch_address_command
  | notmuch_show_command
  | notmuch_count_command
  | notmuch_reply_command
  | notmuch_tag_command
  | notmuch_dump_command
  | notmuch_restore_command
  | notmuch_compact_command
  | notmuch_config_command
  | notmuch_help_command
  deriving DecidableEq, Repr

/-- `struct command` from `notmuch.c`: `name` is a `const char *` that is
`NULL` for the default entry, hence an `Option String`. -/
structure command_t where
  name : Option String
  function : command_function_t
  create_config : Bool
  summary : String
  deriving DecidableEq, Repr

/-- The static `commands[]` table from `notmuch.c`, in declaration order. -/
def commands : List command_t :=
  [ ⟨none, command_function_t.notmuch_command, true,
      "Notmuch main command."⟩,
    ⟨some ("setup"), command_function_t.notmuch_setup_command, true,
      "Interactively set up notmuch for first use."⟩,
    ⟨some ("new"), command_function_t.notmuch_new_command, false,
      "Find and import new messages to the notmuch database."⟩,
    ⟨some ("insert"), command_function_t.notmuch_insert_command, false,
      "Add a new message into the maildir and notmuch database."⟩,
    ⟨some ("search"), command_function_t.notmuch_search_command, false,
      "Search for messages matching the given search terms."⟩,
    ⟨some ("address"), command_function_t.notmuch_address_command, false,
      "Get addresses from messages matching the given search terms."⟩,
    ⟨some ("show"), command_function_t.notmuch_show_command, false,
      "Show all messages matching the search terms."⟩,
    ⟨some ("count"), command_function_t.notmuch_count_command, false,
      "Count messages matching the search terms."⟩,
    ⟨some ("reply"), command_function_t.notmuch_reply_command, false,
      "Construct a reply template for a set of messages."⟩,
    ⟨some ("tag"), command_function_t.notmuch_tag_command, false,
      "Add/remove tags for all messages matching the search terms."⟩,
    ⟨some ("dump"), command_function_t.notmuch_dump_command, false,
      "Create a plain-text dump of the tags for each message."⟩,
    ⟨some ("restore"), command_function_t.notmuch_restore_command, false,
      "Restore the tags from the given dump file (see \x27dump\x27)."⟩,
    ⟨some ("compact"), command_function_t.notmuch_compact_command, false,
      "Compact the notmuch database."⟩,
    ⟨some ("config"), command_function_t.notmuch_config_command, false,
      "Get or set settings in the notmuch configuration file."⟩,
    ⟨some ("help"), command_function_t.notmuch_help_command, true,
      "This message, or more detailed help for the named command."⟩ ]

/-- `struct help_topic` from `notmuch.c`. -/
structure help_topic_t where
  name : String
  summary : String
  deriving DecidableEq, Repr

/-- The static `help_topics[]` table from `notmuch.c`. -/
def help_topics : List help_topic_t :=
  [ ⟨"search-terms", "Common search term syntax."⟩,
    ⟨"hooks", "Hooks that will be run before or after certain commands."⟩ ]

/-- The per-entry test of the `find_command` loop:
`(!name && !commands[i].name) || (name && commands[i].name && strcmp (name, commands[i].name) == 0)`. -/
def command_matches (name : Option String) (c : command_t) : Bool :=
  match name, c.name with
  | none, none => true
  | some n, some cn => n == cn
  | _, _ => false

/-- `find_command` from `notmuch.c`: first table entry whose name matches,
`NULL` (`none`) when no entry matches. -/
def find_command (name : Option String) : Option command_t :=
  commands.find? (command_matches name)

/-- A string of `n` spaces, for the `%-12s` field padding of `fprintf`. -/
def spaces : Nat → String
  | 0 => ""
  | n + 1 => " " ++ spaces n

/-- Left-justified minimum-width-12 rendering of a string (`%-12s`). -/
def pad12 (s : String) : String :=
  if s.length < 12 then s ++ spaces (12 - s.length) else s

/-- The lines written by `usage` in `notmuch.c`, in order: the banner, the
command table (entries with a `NULL` name skipped), and the help topics. -/
def usage_lines : List String :=
  [ "Usage: notmuch --help\n       notmuch --version\n       notmuch <command> [args...]\n",
    "\n",
    "The available commands are as follows:\n",
    "\n" ] ++
  (commands.filterMap (fun c =>
    c.name.map (fun n => "  " ++ pad12 n ++ "  " ++ c.summary ++ "\n"))) ++
  [ "\n",
    "Additional help topics are as follows:\n",
    "\n" ] ++
  (help_topics.map (fun t => "  " ++ pad12 t.name ++ "  " ++ t.summary ++ "\n")) ++
  [ "\n",
    "Use \x22notmuch help <command or topic>\x22 for more details on each command or topic.\n\n" ]

/-- How a call into the help resolver leaves the process: a normal `return`
to the caller with an `int`, a call to `exit`, or a successful `execlp`
replacing the process image with the documentation viewer. -/
inductive HelpOutcome where
  | returned (code : Int)
  | exited (code : Int)
  | execed (page : String)
  deriving DecidableEq, Repr

/-- `exec_man` from `notmuch.c`.  `execlp` is an external collaborator:
`exec_ok page` says whether replacing the process image with `man page`
succeeds.  On success `execlp` does not return; on failure the code runs
`perror ("exec man")` and `exit (1)`. -/
def exec_man (exec_ok : String → Bool) (page : String) :
    HelpOutcome × List String :=
  if exec_ok page then (HelpOutcome.execed page, [])
  else (HelpOutcome.exited 1, ["exec man"])

/-- The meta-help text printed for `notmuch help help`. -/
def help_meta_text : String :=
  "The notmuch help system.\n\n" ++
  "\tNotmuch uses the man command to display help. In case\n" ++
  "\tof difficulties check that MANPATH includes the pages\n" ++
  "\tinstalled by notmuch.\n\n" ++
  "\tTry \x22notmuch help\x22 for a list of topics.\n"

/-- The final diagnostic of `_help_for`, with the `%s` hole filled. -/
def help_unknown_msg (topic_name : String) : String :=
  "\nSorry, " ++ topic_name ++
  " is not a known command. There\x27s not much I can do to help.\n\n"

/-- Full observable trace of one `_help_for` call: how it left the process,
what it printed, and every man page passed to `exec_man` (a delegation
attempt). -/
structure HelpRun where
  outcome : HelpOutcome
  stdout : List String
  stderr : List String
  exec_attempts : List String
  deriving DecidableEq, Repr

/-- `_help_for` from `notmuch.c`.  The topic loop is a first-match search
because `exec_man` never returns control (it either replaces the process
image or exits). -/
def _help_for (exec_ok : String → Bool) (topic_name : Option String) :
    HelpRun :=
  match topic_name with
  | none =>
    ⟨HelpOutcome.returned EXIT_SUCCESS,
      "The notmuch mail system.\n\n" :: usage_lines, [], []⟩
  | some t =>
    if t == "help" then
      ⟨HelpOutcome.returned EXIT_SUCCESS, [help_meta_text], [], []⟩
    else
      match find_command (some t) with
      | some command =>
        let page := "notmuch-" ++ command.name.getD ("(null)")
        let r := exec_man exec_ok page
        ⟨r.1, [], r.2, [page]⟩
      | none =>
        match help_topics.find? (fun topic => t == topic.name) with
        | some topic =>
          let page := "notmuch-" ++ topic.name
          let r := exec_man exec_ok page
          ⟨r.1, [], r.2, [page]⟩
        | none =>
          ⟨HelpOutcome.returned EXIT_FAILURE, [], [help_unknown_msg t], []⟩

/-- A way the process terminates without the current function returning:
`exit (code)`, or a successful `execlp` replacing the image. -/
inductive ProcessTermination where
  | exited (code : Int)
  | execed (page : String)
  deriving DecidableEq, Repr

/-- Observable trace of one `notmuch_process_shared_options` call:
`termination = none` means the function returned normally. -/
structure SharedRun where
  termination : Option ProcessTermination
  stdout : List String
  stderr : List String
  help_calls : Nat
  exec_attempts : List String
  deriving DecidableEq, Repr

/-- `notmuch_process_shared_options` from `notmuch.c`.  `print_version` and
`print_help` are the process-wide flags filled in by the shared option
descriptors during parsing. -/
def notmuch_process_shared_options (print_version print_help : Bool)
    (exec_ok : String → Bool) (subcommand_name : Option String) : SharedRun :=
  if print_version then
    ⟨some (ProcessTermination.exited EXIT_SUCCESS), [version_line], [], 0, []⟩
  else if print_help then
    let h := _help_for exec_ok subcommand_name
    match h.outcome with
    | HelpOutcome.returned ret =>
      ⟨some (ProcessTermination.exited ret), h.stdout, h.stderr, 1, h.exec_attempts⟩
    | HelpOutcome.exited c =>
      ⟨some (ProcessTermination.exited c), h.stdout, h.stderr, 1, h.exec_attempts⟩
    | HelpOutcome.execed p =>
      ⟨some (ProcessTermination.execed p), h.stdout, h.stderr, 1, h.exec_attempts⟩
  else
    ⟨none, [], [], 0, []⟩

/-- The inputs of one `main` invocation, with the response of every external
collaborator made explicit:

* `parse_ok` — whether `parse_arguments` returned a non-negative index;
* `command_name` — `argv[opt_index]` when `opt_index < argc`, else `none`;
* `print_version`, `print_help` — the shared flags set during parsing;
* `exec_ok` — whether `execlp` succeeds on a given man page;
* `config_open_ok` — whether `notmuch_config_open` returns non-`NULL`;
* `handler_ret` — the status returned by the dispatched subcommand handler
  (handlers are opaque external collaborators);
* `talloc_report` — `getenv ("NOTMUCH_TALLOC_REPORT")`, `none` when unset;
* `report_open_ok` — whether `fopen (talloc_report, "w")` succeeds. -/
structure MainEnv where
  parse_ok : Bool
  command_name : Option String
  print_version : Bool
  print_help : Bool
  exec_ok : String → Bool
  config_open_ok : Bool
  handler_ret : Int
  talloc_report : Option String
  report_open_ok : Bool

/-- How one `main` invocation leaves the process: normal `return` from
`main`, an `exit` call (which skips the `DONE` teardown), or a process-image
replacement inside the help path. -/
inductive MainOutcome where
  | exited (code : Int)
  | execed (page : String)
  | returned (code : Int)
  deriving DecidableEq, Repr

/-- Observable trace of one `main` invocation: outcome, output, and counters
for configuration acquisition/release, handler calls, the resolution step
of the dispatcher (`find_command`), `_help_for` calls, and talloc-report write
attempts. -/
structure MainResult where
  outcome : MainOutcome
  stdout : List String
  stderr : List String
  config_opens : Nat
  config_closes : Nat
  handler_calls : Nat
  dispatch_lookups : Nat
  help_calls : Nat
  report_attempts : Nat
  report_written : Bool
  deriving Repr

/-- The unknown-command diagnostic of `main`, with the `%s` hole filled
(glibc renders a `NULL` argument of `%s` as `(null)`; the `none` case is
unreachable because `find_command none` matches the default entry). -/
def unknown_command_msg (command_name : Option String) : String :=
  "Error: Unknown command \x27" ++ command_name.getD ("(null)") ++
  "\x27 (see \x22notmuch help\x22)\n"

/-- The `DONE` block of `main`: close the configuration iff it was opened,
then handle `NOTMUCH_TALLOC_REPORT` — when set non-empty, try to open the
report file; on success write the report, on failure force `ret = 1` and
print an error. -/
def main_done (env : MainEnv) (ret : Int) (opened : Bool)
    (out err : List String) (handler_calls dispatch_lookups : Nat) :
    MainResult :=
  let opens := if opened then 1 else 0
  let closes := if opened then 1 else 0
  match env.talloc_report with
  | some rpt =>
    if rpt ≠ "" then
      if env.report_open_ok then
        ⟨MainOutcome.returned ret, out, err, opens, closes,
          handler_calls, dispatch_lookups, 0, 1, true⟩
      else
        ⟨MainOutcome.returned 1, out,
          err ++ ["ERROR: unable to write talloc log. ", rpt], opens, closes,
          handler_calls, dispatch_lookups, 0, 1, false⟩
    else
      ⟨MainOutcome.returned ret, out, err, opens, closes,
        handler_calls, dispatch_lookups, 0, 0, false⟩
  | none =>
    ⟨MainOutcome.returned ret, out, err, opens, closes,
      handler_calls, dispatch_lookups, 0, 0, false⟩

/-- `main` from `notmuch.c`: parse global options (failure jumps to `DONE`
with `EXIT_FAILURE`), read the command name, run the shared-option policy
(which may exit or exec), resolve the command (unknown name jumps to `DONE`
with `EXIT_FAILURE` after a diagnostic), open the configuration (failure
jumps to `DONE` with `EXIT_FAILURE`), run the handler, then `DONE`. -/
def main (env : MainEnv) : MainResult :=
  if env.parse_ok then
    let command_name := env.command_name
    let shared := notmuch_process_shared_options env.print_version
      env.print_help env.exec_ok command_name
    match shared.termination with
    | some (ProcessTermination.exited c) =>
      ⟨MainOutcome.exited c, shared.stdout, shared.stderr, 0, 0, 0, 0,
        shared.help_calls, 0, false⟩
    | some (ProcessTermination.execed p) =>
      ⟨MainOutcome.execed p, shared.stdout, shared.stderr, 0, 0, 0, 0,
        shared.help_calls, 0, false⟩
    | none =>
      match find_command command_name with
      | none =>
        main_done env EXIT_FAILURE false [] [unknown_command_msg command_name] 0 1
      | some _ =>
        if env.config_open_ok then
          main_done env env.handler_ret true [] [] 1 1
        else
          main_done env EXIT_FAILURE false [] [] 0 1
  else
    main_done env EXIT_FAILURE false [] [] 0 0

/-- `env` with the `NOTMUCH_TALLOC_REPORT` variable unset and everything else
unchanged, for comparing a run against the same run without a report
request. -/
def clear_report (env : MainEnv) : MainEnv :=
  ⟨env.parse_ok, env.command_name, env.print_version, env.print_help,
    env.exec_ok, env.config_open_ok, env.handler_ret, none, env.report_open_ok⟩

/-- The dispatcher environment of an invocation whose only argument is the
explicit empty-string command name, with no shared option set. -/
def empty_name_env : MainEnv :=
  ⟨true, some (""), false, false, fun _ => false, true, 0, none, true⟩

/-- The dispatcher environment of `notmuch --version --help bogus`: both
short-circuit options set, unknown command name. -/
def version_help_bogus_env : MainEnv :=
  ⟨true, some ("bogus"), true, true, fun _ => false, true, 0, none, true⟩

/-- The dispatcher environment of `notmuch --version bogus`: version
requested, first non-option token an unregistered command name. -/
def version_bogus_env : MainEnv :=
  ⟨true, some ("bogus"), true, false, fun _ => false, true, 0, none, true⟩

/-- The dispatcher environment of `notmuch bogus`: unknown command name, no
shared option set. -/
def bogus_env : MainEnv :=
  ⟨true, some ("bogus"), false, false, fun _ => false, true, 0, none, true⟩

/-- The dispatcher environment of an invocation whose global option parse
fails. -/
def parse_fail_env : MainEnv :=
  ⟨false, none, false, false, fun _ => false, true, 0, none, true⟩

/-- The dispatcher environment of `notmuch new` with `NOTMUCH_TALLOC_REPORT`
set to `/tmp/report`, a handler returning 0, and an unwritable report
path. -/
def report_fail_env : MainEnv :=
  ⟨true, some ("new"), false, false, fun _ => false, true, 0, some ("/tmp/report"), false⟩

lemma command_matches_some_iff (s : String) (c : command_t) :
    command_matches (some s) c = true ↔ c.name = some s := by
  unfold command_matches
  cases hn : c.name with
  | none => simp
  | some cn =>
    simp only [beq_iff_eq, Option.some.injEq]
    exact ⟨fun h => h.symm, fun h => h.symm⟩

/-- C1: with `MIN <= MIN_ACTIVE <= CUR`, the format compatibility gate exits
with the distinct "too new" code (after a diagnostic naming the requested
and current versions) when `requested > CUR`, exits with the distinct "too
old" code when `requested < MIN`, warns and returns when
`MIN <= requested < MIN_ACTIVE`, returns silently when
`MIN_ACTIVE <= requested <= CUR`, and each boundary value `MIN`,
`MIN_ACTIVE`, `CUR` takes a non-fatal branch. -/
theorem format_gate_spec (m ma cur req : Int) (h1 : m ≤ ma) (h2 : ma ≤ cur) :
    (req > cur →
      notmuch_exit_if_unsupported_format m ma cur req =
        (FormatDecision.exitWith NOTMUCH_EXIT_FORMAT_TOO_NEW,
          [format_too_new_msg req cur])) ∧
    (req < m →
      notmuch_exit_if_unsupported_format m ma cur req =
        (FormatDecision.exitWith NOTMUCH_EXIT_FORMAT_TOO_OLD,
          [format_too_old_msg req m])) ∧
    (m ≤ req → req < ma →
      notmuch_exit_if_unsupported_format m ma cur req =
        (FormatDecision.proceed, [format_deprecated_msg req])) ∧
    (ma ≤ req → req ≤ cur →
      notmuch_exit_if_unsupported_format m ma cur req =
        (FormatDecision.proceed, [])) ∧
    (notmuch_exit_if_unsupported_format m ma cur m).1 = FormatDecision.proceed ∧
    (notmuch_exit_if_unsupported_format m ma cur ma).1 = FormatDecision.proceed ∧
    (notmuch_exit_if_unsupported_format m ma cur cur).1 = FormatDecision.proceed ∧
    NOTMUCH_EXIT_FORMAT_TOO_NEW ≠ NOTMUCH_EXIT_FORMAT_TOO_OLD ∧
    NOTMUCH_EXIT_FORMAT_TOO_NEW ≠ EXIT_SUCCESS ∧
    NOTMUCH_EXIT_FORMAT_TOO_OLD ≠ EXIT_SUCCESS ∧
    (∃ a b c, format_too_new_msg req cur = a ++ toString req ++ b ++ toString cur ++ c) ∧
    (∃ a b c, format_too_old_msg req m = a ++ toString req ++ b ++ toString m ++ c) := by
  refine ⟨?_, ?_, ?_, ?_, ?_, ?_, ?_, by decide, by decide, by decide,
    ⟨_, _, _, rfl⟩, ⟨_, _, _, rfl⟩⟩
  · intro h
    unfold notmuch_exit_if_unsupported_format
    rw [if_pos h]
  · intro h
    unfold notmuch_exit_if_unsupported_format
    rw [if_neg (by omega), if_pos h]
  · intro hm hma
    unfold notmuch_exit_if_unsupported_format
    rw [if_neg (by omega), if_neg (by omega), if_pos hma]
  · intro hma hcur
    unfold notmuch_exit_if_unsupported_format
    rw [if_neg (by omega), if_neg (by omega), if_neg (by omega)]
  · unfold notmuch_exit_if_unsupported_format
    rw [if_neg (by omega), if_neg (by omega)]
    rcases lt_or_le m ma with hb | hb
    · rw [if_pos hb]
    · rw [if_neg (by omega)]
  · unfold notmuch_exit_if_unsupported_format
    rw [if_neg (by omega), if_neg (by omega), if_neg (by omega)]
  · unfold notmuch_exit_if_unsupported_format
    rw [if_neg (by omega), if_neg (by omega), if_neg (by omega)]

/-- Witness for `format_gate_spec` at `(MIN, MIN_ACTIVE, CUR) = (1, 2, 3)`
and `requested = 0`. -/
theorem format_gate_spec_witness :
    notmuch_exit_if_unsupported_format 1 2 3 0 =
      (FormatDecision.exitWith NOTMUCH_EXIT_FORMAT_TOO_OLD,
        [format_too_old_msg 0 1]) :=
  (format_gate_spec 1 2 3 0 (by decide) (by decide)).2.1 (by decide)

/-- C4: `find_command` maps each registered name (and the absent name) to
its own table entry, maps the absent name to the default entry, and maps
every non-registered string to `none` — lookup is by exact string equality
only. -/
theorem find_command_spec :
    (∀ c ∈ commands, find_command c.name = some c) ∧
    find_command none =
      some ⟨none, command_function_t.notmuch_command, true, "Notmuch main command."⟩ ∧
    (∀ s : String, (∀ c ∈ commands, c.name ≠ some s) →
      find_command (some s) = none) := by
  refine ⟨by decide, by decide, ?_⟩
  intro s h
  unfold find_command
  rw [List.find?_eq_none]
  intro c hc hmatch
  exact h c hc ((command_matches_some_iff s c).mp hmatch)

/-- Witness for `find_command_spec`: the unregistered name `frobnicate`
resolves to not-found. -/
theorem find_command_spec_witness :
    find_command (some ("frobnicate")) = none :=
  find_command_spec.2.2 ("frobnicate") (by decide)

/-- C10: the empty string is not a registered command name — only the absent
(`NULL`) name selects the default entry — so `find_command ""` is not-found
and an invocation with the explicit empty-string command argument takes the
unknown-command failure path: failure exit status, unknown-command
diagnostic, no configuration resource opened and no handler run. -/
theorem find_command_empty_string :
    find_command (some ("")) = none ∧
    find_command none =
      some ⟨none, command_function_t.notmuch_command, true, "Notmuch main command."⟩ ∧
    (main empty_name_env).outcome = MainOutcome.returned EXIT_FAILURE ∧
    (main empty_name_env).stderr = [unknown_command_msg (some (""))] ∧
    (main empty_name_env).config_opens = 0 ∧
    (main empty_name_env).handler_calls = 0 :=
  ⟨rfl, rfl, rfl, rfl, rfl, rfl⟩

/-- C2: the database identity gate is a no-op (no query, no output) iff no
revision was requested; with a requested revision `r` and actual identifier
`A` it returns normally iff `r = A` by exact string equality, and otherwise
exits with status 1 after a diagnostic naming both values. -/
theorem uuid_gate_spec (A : String) (R : Option String) (s : Int) :
    (R = none →
      notmuch_exit_if_unmatched_db_uuid R s (some A) =
        some (false, UuidOutcome.returned)) ∧
    (notmuch_exit_if_unmatched_db_uuid R s (some A) =
        some (false, UuidOutcome.returned) → R = none) ∧
    (∀ r, R = some r →
      (notmuch_exit_if_unmatched_db_uuid R s (some A) =
        some (true, UuidOutcome.returned) ↔ r = A)) ∧
    (∀ r, R = some r → r ≠ A →
      notmuch_exit_if_unmatched_db_uuid R s (some A) =
        some (true, UuidOutcome.fatal 1 (uuid_mismatch_msg r A))) ∧
    (∀ r, ∃ a b c, uuid_mismatch_msg r A = a ++ r ++ b ++ A ++ c) := by
  refine ⟨?_, ?_, ?_, ?_, fun r => ⟨_, _, _, rfl⟩⟩
  · rintro rfl
    rfl
  · intro h
    cases R with
    | none => rfl
    | some r =>
      exfalso
      by_cases hr : r = A
      · simp [notmuch_exit_if_unmatched_db_uuid, hr] at h
      · simp [notmuch_exit_if_unmatched_db_uuid, hr] at h
  · rintro r rfl
    by_cases hr : r = A
    · simp [notmuch_exit_if_unmatched_db_uuid, hr]
    · simp [notmuch_exit_if_unmatched_db_uuid, hr]
  · rintro r rfl hr
    simp [notmuch_exit_if_unmatched_db_uuid, hr]

/-- Witness for `uuid_gate_spec`: requested revision `b` against actual
identifier `a` exits with status 1 and the mismatch diagnostic. -/
theorem uuid_gate_spec_witness :
    notmuch_exit_if_unmatched_db_uuid (some ("b")) 0 (some ("a")) =
      some (true, UuidOutcome.fatal 1 (uuid_mismatch_msg ("b") ("a"))) :=
  (uuid_gate_spec ("a") (some ("b")) 0).2.2.2.1 ("b") rfl (by decide)

/-- C8 counterexample: with a requested revision and a failed query (the
identifier left at its `NULL` initialisation), the comparison step is not
well-defined — the code reaches `strcmp` with a `NULL` second argument, so
the embedding yields no defined result, refuting "the comparison step is
well-defined (total) even when the queried identifier is absent". -/
theorem uuid_gate_null_comparison_cex :
    (notmuch_exit_if_unmatched_db_uuid (some ("a")) 0 none).isSome = false :=
  rfl

/-- C8 as amended: with a requested revision the gate never inspects the
status result of the query (`IGNORE_RESULT`), so it does not itself fail on a
query error and always proceeds to the mismatch comparison; that comparison
is well-defined and decides the outcome whenever the queried identifier is
present, but with an absent (NULL) identifier it applies `strcmp` to a null
pointer, which is not defined. -/
theorem uuid_gate_tolerates_query_error (r : String) (s1 s2 : Int)
    (q : Option String) :
    notmuch_exit_if_unmatched_db_uuid (some r) s1 q =
      notmuch_exit_if_unmatched_db_uuid (some r) s2 q ∧
    (∀ u, q = some u →
      notmuch_exit_if_unmatched_db_uuid (some r) s1 q =
        some (true, if r = u then UuidOutcome.returned
          else UuidOutcome.fatal 1 (uuid_mismatch_msg r u))) ∧
    (q = none → notmuch_exit_if_unmatched_db_uuid (some r) s1 q = none) := by
  refine ⟨rfl, ?_, ?_⟩
  · rintro u rfl
    by_cases hr : r = u
    · simp [notmuch_exit_if_unmatched_db_uuid, hr]
    · simp [notmuch_exit_if_unmatched_db_uuid, hr]
  · rintro rfl
    rfl

/-- Witness for `uuid_gate_tolerates_query_error`: a successful query with a
matching identifier returns normally. -/
theorem uuid_gate_tolerates_query_error_witness :
    notmuch_exit_if_unmatched_db_uuid (some ("a")) 0 (some ("a")) =
      some (true, UuidOutcome.returned) := by
  have h := (uuid_gate_tolerates_query_error ("a") 0 1 (some ("a"))).2.1 ("a") rfl
  simpa using h

lemma main_done_opens (env : MainEnv) (ret : Int) (opened : Bool)
    (out err : List String) (hc dl : Nat) :
    (main_done env ret opened out err hc dl).config_opens =
      if opened then 1 else 0 := by
  unfold main_done
  cases env.talloc_report with
  | none => rfl
  | some rpt =>
    dsimp only
    split_ifs <;> rfl

lemma main_done_closes (env : MainEnv) (ret : Int) (opened : Bool)
    (out err : List String) (hc dl : Nat) :
    (main_done env ret opened out err hc dl).config_closes =
      if opened then 1 else 0 := by
  unfold main_done
  cases env.talloc_report with
  | none => rfl
  | some rpt =>
    dsimp only
    split_ifs <;> rfl

lemma main_done_config_balance (env : MainEnv) (ret : Int) (opened : Bool)
    (out err : List String) (hc dl : Nat) :
    (main_done env ret opened out err hc dl).config_closes =
      (main_done env ret opened out err hc dl).config_opens ∧
    (main_done env ret opened out err hc dl).config_opens ≤ 1 := by
  rw [main_done_opens, main_done_closes]
  exact ⟨rfl, by cases opened <;> simp⟩

lemma main_done_report_behavior (env : MainEnv) (ret : Int) (opened : Bool)
    (out err : List String) (hc dl : Nat) (rpt : String)
    (hset : env.talloc_report = some rpt) (hne : rpt ≠ "") :
    (main_done env ret opened out err hc dl).report_attempts = 1 ∧
    (env.report_open_ok = false →
      (main_done env ret opened out err hc dl).outcome = MainOutcome.returned 1) ∧
    (env.report_open_ok = true →
      (main_done env ret opened out err hc dl).outcome = MainOutcome.returned ret) := by
  unfold main_done
  rw [hset]
  by_cases ho : env.report_open_ok = true
  · simp [hne, ho]
  · simp [hne, ho]

lemma main_done_outcome_no_report (env : MainEnv) (ret : Int) (opened : Bool)
    (out err : List String) (hc dl : Nat)
    (hnone : env.talloc_report = none) :
    (main_done env ret opened out err hc dl).outcome = MainOutcome.returned ret := by
  unfold main_done
  rw [hnone]

/-- Every `main` run either terminates inside the shared-option policy
(`exit` or `exec`, never a `return` from `main`, with the run independent of
the talloc-report variable) or reaches the `DONE` teardown with arguments
that do not depend on the talloc-report variable. -/
lemma main_clear_branches (env : MainEnv) :
    (main env = main (clear_report env) ∧
      ∀ c, (main env).outcome ≠ MainOutcome.returned c) ∨
    (∃ ret opened out err hc dl,
      main env = main_done env ret opened out err hc dl ∧
      main (clear_report env) =
        main_done (clear_report env) ret opened out err hc dl) := by
  by_cases hpk : env.parse_ok = true
  · cases hterm : (notmuch_process_shared_options env.print_version
        env.print_help env.exec_ok env.command_name).termination with
    | some t =>
      cases t with
      | exited c =>
        left
        constructor
        · simp [main, clear_report, hpk, hterm]
        · intro c0
          simp [main, hpk, hterm]
      | execed p =>
        left
        constructor
        · simp [main, clear_report, hpk, hterm]
        · intro c0
          simp [main, hpk, hterm]
    | none =>
      right
      cases hfc : find_command env.command_name with
      | none =>
        refine ⟨EXIT_FAILURE, false, [], [unknown_command_msg env.command_name],
          0, 1, ?_, ?_⟩
        · simp [main, hpk, hterm, hfc]
        · simp [main, clear_report, hpk, hterm, hfc]
      | some cmd =>
        by_cases hco : env.config_open_ok = true
        · refine ⟨env.handler_ret, true, [], [], 1, 1, ?_, ?_⟩
          · simp [main, hpk, hterm, hfc, hco]
          · simp [main, clear_report, hpk, hterm, hfc, hco]
        · refine ⟨EXIT_FAILURE, false, [], [], 0, 1, ?_, ?_⟩
          · simp [main, hpk, hterm, hfc, hco]
          · simp [main, clear_report, hpk, hterm, hfc, hco]
  · right
    refine ⟨EXIT_FAILURE, false, [], [], 0, 0, ?_, ?_⟩
    · simp [main, hpk]
    · simp [main, clear_report, hpk]

/-- C3: whenever the shared `version` option was parsed as set (and the
global parse succeeded), `main` terminates through the shared-option policy
with success status after printing only the fixed version string — no help
resolution, no command lookup, no configuration open, no handler — and this
holds even with `help` simultaneously set and with an arbitrary (possibly
invalid) command name on the command line. -/
theorem version_short_circuit (env : MainEnv)
    (hp : env.parse_ok = true) (hv : env.print_version = true) :
    (main env).outcome = MainOutcome.exited EXIT_SUCCESS ∧
    (main env).stdout = [version_line] ∧
    (main env).stderr = [] ∧
    (main env).help_calls = 0 ∧
    (main env).dispatch_lookups = 0 ∧
    (main env).config_opens = 0 ∧
    (main env).handler_calls = 0 := by
  have h1 : main env =
      ⟨MainOutcome.exited EXIT_SUCCESS, [version_line], [], 0, 0, 0, 0, 0, 0,
        false⟩ := by
    simp [main, notmuch_process_shared_options, hp, hv]
  refine ⟨?_, ?_, ?_, ?_, ?_, ?_, ?_⟩ <;> rw [h1]

/-- Witness for `version_short_circuit`: `notmuch --version --help bogus`
exits successfully with just the version line, with help never invoked and
the bogus command name never resolved. -/
theorem version_short_circuit_witness :
    (main version_help_bogus_env).outcome = MainOutcome.exited EXIT_SUCCESS ∧
    (main version_help_bogus_env).stdout = [version_line] ∧
    (main version_help_bogus_env).stderr = [] ∧
    (main version_help_bogus_env).help_calls = 0 ∧
    (main version_help_bogus_env).dispatch_lookups = 0 ∧
    (main version_help_bogus_env).config_opens = 0 ∧
    (main version_help_bogus_env).handler_calls = 0 :=
  version_short_circuit version_help_bogus_env rfl rfl

/-- C5: on every path on which `main` returns, the configuration release
count equals the acquire count, and that count is 0 or 1. -/
theorem config_release_balanced (env : MainEnv) (c : Int)
    (_h : (main env).outcome = MainOutcome.returned c) :
    (main env).config_closes = (main env).config_opens ∧
    (main env).config_opens ≤ 1 := by
  rcases main_clear_branches env with ⟨_, hnr⟩ | ⟨ret, opened, out, err, hc, dl, h1, _⟩
  · exact absurd _h (hnr c)
  · rw [h1]
    exact main_done_config_balance env ret opened out err hc dl

/-- Witness for `config_release_balanced` on the parse-failure abort path. -/
theorem config_release_balanced_witness :
    (main parse_fail_env).config_closes = (main parse_fail_env).config_opens ∧
    (main parse_fail_env).config_opens ≤ 1 :=
  config_release_balanced parse_fail_env 1 rfl

/-- C9: when `NOTMUCH_TALLOC_REPORT` is set non-empty, every run that
returns from `main` attempts the report; if the report file cannot be opened
the exit status is forced to 1 whatever the pre-teardown status was, and if
the report is written the outcome is exactly that of the same run without
the variable set. -/
theorem talloc_report_semantics (env : MainEnv) (rpt : String)
    (hset : env.talloc_report = some rpt) (hne : rpt ≠ "") :
    (∀ c, (main env).outcome = MainOutcome.returned c →
      (main env).report_attempts = 1) ∧
    (env.report_open_ok = false →
      ∀ c, (main env).outcome = MainOutcome.returned c → c = 1) ∧
    (env.report_open_ok = true →
      (main env).outcome = (main (clear_report env)).outcome) := by
  rcases main_clear_branches env with ⟨heq, hnr⟩ |
    ⟨ret, opened, out, err, hc, dl, h1, h2⟩
  · refine ⟨?_, ?_, ?_⟩
    · intro c hc0
      exact absurd hc0 (hnr c)
    · intro _ c hc0
      exact absurd hc0 (hnr c)
    · intro _
      rw [heq]
  · have hb := main_done_report_behavior env ret opened out err hc dl rpt hset hne
    refine ⟨?_, ?_, ?_⟩
    · intro c _
      rw [h1]
      exact hb.1
    · intro ho c hc0
      rw [h1] at hc0
      rw [hb.2.1 ho] at hc0
      exact (MainOutcome.returned.injEq _ _ ▸ congrArg id hc0.symm : c = 1)
    · intro ho
      rw [h1, h2, hb.2.2 ho,
        main_done_outcome_no_report (clear_report env) ret opened out err hc dl rfl]

/-- Witness for `talloc_report_semantics`: with the report path unwritable,
a successful handler run still exits with status 1. -/
theorem talloc_report_semantics_witness :
    (main report_fail_env).report_attempts = 1 ∧ (1 : Int) = 1 :=
  ⟨(talloc_report_semantics report_fail_env ("/tmp/report") rfl (by decide)).1 1 rfl,
    (talloc_report_semantics report_fail_env ("/tmp/report") rfl (by decide)).2.1 rfl 1 rfl⟩

/-- C6 counterexample: in the invocation `notmuch --version bogus` the first
non-option token `bogus` is not a registered command name, yet the process
exits with success status after printing only the version line and no
diagnostic at all — refuting the claim for invocations in which a
short-circuiting shared option is also set. -/
theorem unknown_command_version_cex :
    find_command (some ("bogus")) = none ∧
    (main version_bogus_env).outcome = MainOutcome.exited EXIT_SUCCESS ∧
    (main version_bogus_env).stderr = [] ∧
    (main version_bogus_env).stdout = [version_line] ∧
    (main version_bogus_env).config_opens = 0 :=
  ⟨rfl, rfl, rfl, rfl, rfl⟩

/-- C6 as amended: provided neither the shared `version` nor `help` option
was parsed as set, an invocation whose first non-option token is an
unregistered command name makes `main` return the failure status after a
diagnostic containing that token, with the configuration never opened and no
handler run. -/
theorem unknown_command_aborts (env : MainEnv) (s : String)
    (hp : env.parse_ok = true) (hv : env.print_version = false)
    (hh : env.print_help = false) (hn : env.command_name = some s)
    (hu : find_command (some s) = none) :
    (main env).outcome = MainOutcome.returned EXIT_FAILURE ∧
    (∃ rest, (main env).stderr = unknown_command_msg (some s) :: rest) ∧
    (∃ a b, unknown_command_msg (some s) = a ++ s ++ b) ∧
    (main env).config_opens = 0 ∧
    (main env).handler_calls = 0 := by
  have h1 : main env =
      main_done env EXIT_FAILURE false [] [unknown_command_msg (some s)] 0 1 := by
    simp [main, notmuch_process_shared_options, hp, hv, hh, hn, hu]
  refine ⟨?_, ?_, ⟨_, _, rfl⟩, ?_, ?_⟩
  · rw [h1]
    unfold main_done
    cases env.talloc_report with
    | none => rfl
    | some rpt =>
      dsimp only
      split_ifs <;> rfl
  · rw [h1]
    unfold main_done
    cases env.talloc_report with
    | none => exact ⟨_, rfl⟩
    | some rpt =>
      dsimp only
      split_ifs <;> exact ⟨_, rfl⟩
  · rw [h1]
    unfold main_done
    cases env.talloc_report with
    | none => rfl
    | some rpt =>
      dsimp only
      split_ifs <;> first | rfl | contradiction
  · rw [h1]
    unfold main_done
    cases env.talloc_report with
    | none => rfl
    | some rpt =>
      dsimp only
      split_ifs <;> rfl

/-- Witness for `unknown_command_aborts`: plain `notmuch bogus`. -/
theorem unknown_command_aborts_witness :
    (main bogus_env).outcome = MainOutcome.returned EXIT_FAILURE ∧
    (∃ rest, (main bogus_env).stderr =
      unknown_command_msg (some ("bogus")) :: rest) ∧
    (∃ a b, unknown_command_msg (some ("bogus")) = a ++ "bogus" ++ b) ∧
    (main bogus_env).config_opens = 0 ∧
    (main bogus_env).handler_calls = 0 :=
  unknown_command_aborts bogus_env ("bogus") rfl rfl rfl rfl rfl

/-- C7 counterexample: for a topic in neither table (`frobozz`), `_help_for`
prints the "not a known command" diagnostic and returns failure with an
empty list of delegation attempts — no documentation-viewer delegation was
ever attempted, let alone one that failed — refuting "this outcome is
reachable only if the external documentation-viewer delegation itself fails
..., in which case the failure message is printed after the delegation
attempt fails". -/
theorem help_unknown_no_delegation_cex :
    find_command (some ("frobozz")) = none ∧
    help_topics.find? (fun topic => ("frobozz" == topic.name)) = none ∧
    (_help_for (fun _ => false) (some ("frobozz"))).outcome =
      HelpOutcome.returned EXIT_FAILURE ∧
    (_help_for (fun _ => false) (some ("frobozz"))).stderr =
      [help_unknown_msg ("frobozz")] ∧
    (_help_for (fun _ => false) (some ("frobozz"))).exec_attempts = [] :=
  ⟨rfl, rfl, rfl, rfl, rfl⟩

/-- C7 as amended: a topic in neither table makes `_help_for` print the
"not a known command" diagnostic and return failure without attempting any
delegation; a delegation that fails to replace the process image (a name
found in a table with `execlp` failing) instead terminates the process with
status 1 from `exec_man` and never reaches that diagnostic. -/
theorem help_for_unknown_topic (exec_ok : String → Bool) (t : String)
    (hh : t ≠ "help") (hc : find_command (some t) = none)
    (ht : help_topics.find? (fun topic => t == topic.name) = none) :
    _help_for exec_ok (some t) =
      ⟨HelpOutcome.returned EXIT_FAILURE, [], [help_unknown_msg t], []⟩ ∧
    (∀ t2 c, find_command (some t2) = some c → t2 ≠ "help" →
      exec_ok ("notmuch-" ++ c.name.getD ("(null)")) = false →
      (_help_for exec_ok (some t2)).outcome = HelpOutcome.exited 1 ∧
      (_help_for exec_ok (some t2)).stderr = ["exec man"] ∧
      (_help_for exec_ok (some t2)).exec_attempts =
        ["notmuch-" ++ c.name.getD ("(null)")]) := by
  constructor
  · have hbeq : (t == "help") = false := by
      simpa using hh
    simp [_help_for, hbeq, hc, ht]
  · intro t2 c hfind hne hex
    have hbeq : (t2 == "help") = false := by
      simpa using hne
    refine ⟨?_, ?_, ?_⟩ <;> simp [_help_for, exec_man, hbeq, hfind, hex]

/-- Witness for `help_for_unknown_topic`: the unknown topic `frobozz` with a
failing viewer. -/
theorem help_for_unknown_topic_witness :
    _help_for (fun _ => false) (some ("frobozz")) =
      ⟨HelpOutcome.returned EXIT_FAILURE, [], [help_unknown_msg ("frobozz")], []⟩ :=
  (help_for_unknown_topic (fun _ => false) ("frobozz") (by decide) rfl rfl).1

end Notmuch
